import Mathlib

/-!
# Verification of the master-listener forwarding relay

A shallow embedding of the repository's core pipeline:

* `src/src/core/listener_redis.py` — ingest listener (FCFS claim, filtering,
  classification, enqueue);
* `src/src/core/forwarder_worker.py` — forwarder worker (thread-parent
  synthesis, post/update with retry, message maps);
* `src/src/config/multi_bot_config.py` — channel → bot assignment;
* `src/src/core/multi_bot_launcher.py` — process supervisor.

Machine integers are modelled as `Nat` with explicit reduction mod `2^32`
where the source relies on 32-bit wraparound (inside MD5); fallible calls
are modelled with `Option`/`Except`; the Redis store and the chat platform
are modelled as explicit state threaded through the handlers.
-/

set_option maxRecDepth 16000

namespace MasterListener

/-! ## MD5 (hashlib.md5)

The listener derives message identifiers with `hashlib.md5(sig).hexdigest()[:16]`
and the assignment table hashes channels with `int(hashlib.md5(id).hexdigest(), 16)`.
We embed MD5 (RFC 1321) executably over byte lists. -/

/-- Truncate to 32 bits, the wraparound MD5's additions rely on. -/
def r32 (x : Nat) : Nat := x % 4294967296

/-- 32-bit left rotation (operand assumed `< 2^32`). -/
def rotl32 (x s : Nat) : Nat :=
  r32 (x <<< s) ||| (x >>> (32 - s))

/-- 32-bit bitwise complement. -/
def not32 (x : Nat) : Nat := 4294967295 ^^^ x

/-- The 64 MD5 sine-derived constants `K[i]` (RFC 1321). -/
def md5K : List Nat :=
  [0xd76aa478, 0xe8c7b756, 0x242070db, 0xc1bdceee,
   0xf57c0faf, 0x4787c62a, 0xa8304613, 0xfd469501,
   0x698098d8, 0x8b44f7af, 0xffff5bb1, 0x895cd7be,
   0x6b901122, 0xfd987193, 0xa679438e, 0x49b40821,
   0xf61e2562, 0xc040b340, 0x265e5a51, 0xe9b6c7aa,
   0xd62f105d, 0x02441453, 0xd8a1e681, 0xe7d3fbc8,
   0x21e1cde6, 0xc33707d6, 0xf4d50d87, 0x455a14ed,
   0xa9e3e905, 0xfcefa3f8, 0x676f02d9, 0x8d2a4c8a,
   0xfffa3942, 0x8771f681, 0x6d9d6122, 0xfde5380c,
   0xa4beea44, 0x4bdecfa9, 0xf6bb4b60, 0xbebfbc70,
   0x289b7ec6, 0xeaa127fa, 0xd4ef3085, 0x04881d05,
   0xd9d4d039, 0xe6db99e5, 0x1fa27cf8, 0xc4ac5665,
   0xf4292244, 0x432aff97, 0xab9423a7, 0xfc93a039,
   0x655b59c3, 0x8f0ccc92, 0xffeff47d, 0x85845dd1,
   0x6fa87e4f, 0xfe2ce6e0, 0xa3014314, 0x4e0811a1,
   0xf7537e82, 0xbd3af235, 0x2ad7d2bb, 0xeb86d391]

/-- The 64 MD5 per-round shift amounts `s[i]`. -/
def md5S : List Nat :=
  [7, 12, 17, 22, 7, 12, 17, 22, 7, 12, 17, 22, 7, 12, 17, 22,
   5, 9, 14, 20, 5, 9, 14, 20, 5, 9, 14, 20, 5, 9, 14, 20,
   4, 11, 16, 23, 4, 11, 16, 23, 4, 11, 16, 23, 4, 11, 16, 23,
   6, 10, 15, 21, 6, 10, 15, 21, 6, 10, 15, 21, 6, 10, 15, 21]

/-- One MD5 round step on the running quadruple, given the 16 message words. -/
def md5Step (m : List Nat) (st : Nat × Nat × Nat × Nat) (i : Nat) :
    Nat × Nat × Nat × Nat :=
  let (a, b, c, d) := st
  let (f, g) :=
    if i < 16 then ((b &&& c) ||| (not32 b &&& d), i)
    else if i < 32 then ((d &&& b) ||| (not32 d &&& c), (5 * i + 1) % 16)
    else if i < 48 then (b ^^^ c ^^^ d, (3 * i + 5) % 16)
    else (c ^^^ (b ||| not32 d), (7 * i) % 16)
  let f' := r32 (f + a + md5K.getD i 0 + m.getD g 0)
  (d, r32 (b + rotl32 f' (md5S.getD i 0)), b, c)

/-- Decode one 64-byte block into 16 little-endian 32-bit words. -/
def md5Words (block : List Nat) : List Nat :=
  (List.range 16).map fun j =>
    block.getD (4 * j) 0 + 256 * block.getD (4 * j + 1) 0 +
      65536 * block.getD (4 * j + 2) 0 + 16777216 * block.getD (4 * j + 3) 0

/-- Process one 64-byte block, updating the 4-word chaining state. -/
def md5Block (st : Nat × Nat × Nat × Nat) (block : List Nat) :
    Nat × Nat × Nat × Nat :=
  let m := md5Words block
  let (a, b, c, d) := (List.range 64).foldl (md5Step m) st
  let (a0, b0, c0, d0) := st
  (r32 (a0 + a), r32 (b0 + b), r32 (c0 + c), r32 (d0 + d))

/-- Split a byte list into 64-byte chunks (structural recursion on a fuel
counter so the kernel can evaluate it; `l.length` steps always suffice). -/
def chunksAux : Nat → List Nat → List (List Nat)
  | 0, _ => []
  | _, [] => []
  | n + 1, l => l.take 64 :: chunksAux n (l.drop 64)

/-- Split a byte list into 64-byte chunks. -/
def chunks64 (l : List Nat) : List (List Nat) := chunksAux l.length l

/-- Little-endian byte expansion of a 32-bit word. -/
def leBytes4 (x : Nat) : List Nat :=
  [x % 256, (x >>> 8) % 256, (x >>> 16) % 256, (x >>> 24) % 256]

/-- Little-endian byte expansion of the 64-bit bit-length field. -/
def leBytes8 (x : Nat) : List Nat :=
  (List.range 8).map fun i => (x >>> (8 * i)) % 256

/-- MD5 padding: `0x80`, zeros to 56 mod 64, then the 64-bit bit length. -/
def md5Pad (msg : List Nat) : List Nat :=
  msg ++ [0x80] ++ List.replicate ((119 - msg.length % 64) % 64) 0 ++
    leBytes8 (8 * msg.length)

/-- MD5 digest of a byte list, as 16 bytes. -/
def md5Digest (msg : List Nat) : List Nat :=
  let st :=
    (chunks64 (md5Pad msg)).foldl md5Block
      (0x67452301, 0xefcdab89, 0x98badcfe, 0x10325476)
  leBytes4 st.1 ++ leBytes4 st.2.1 ++ leBytes4 st.2.2.1 ++ leBytes4 st.2.2.2

/-- Lowercase hex digit for a nibble. -/
def hexDigit (n : Nat) : Char :=
  "0123456789abcdef".toList.getD (n % 16) '0'

/-- Two-character lowercase hex rendering of a byte. -/
def hexByte (b : Nat) : List Char :=
  [hexDigit (b / 16), hexDigit (b % 16)]

/-- UTF-8 encoding of a single character (`str.encode()`). -/
def utf8Char (c : Char) : List Nat :=
  let n := c.toNat
  if n < 0x80 then [n]
  else if n < 0x800 then [0xc0 + n / 64, 0x80 + n % 64]
  else if n < 0x10000 then
    [0xe0 + n / 4096, 0x80 + (n / 64) % 64, 0x80 + n % 64]
  else
    [0xf0 + n / 262144, 0x80 + (n / 4096) % 64, 0x80 + (n / 64) % 64,
     0x80 + n % 64]

/-- UTF-8 encoding of a string (`str.encode()`). -/
def utf8Bytes (s : String) : List Nat := s.data.flatMap utf8Char

/-- `hashlib.md5(s.encode()).hexdigest()` — 32 lowercase hex characters. -/
def md5Hexdigest (s : String) : String :=
  ⟨(md5Digest (utf8Bytes s)).flatMap hexByte⟩

/-- `int(hashlib.md5(s.encode()).hexdigest(), 16)` — the digest as a big-endian
128-bit integer, as used by `assign_channels_to_bots`. -/
def md5Int (s : String) : Nat :=
  (md5Digest (utf8Bytes s)).foldl (fun acc b => acc * 256 + b) 0

/-! ## Ingest listener (`src/src/core/listener_redis.py`)

The Redis store is modelled as an explicit state: a `reachable` flag (an
unreachable store makes every Redis call raise), an association list for the
key/value space, and the `forwarding:jobs` stream as a list of normalized
jobs.  Keys never expire in the model, which represents behaviour within the
5-minute claim TTL window. -/

/-- Python string slicing `s[:n]` — the first `n` characters. -/
def takeChars (s : String) (n : Nat) : String := ⟨s.data.take n⟩

/-- Python `str.endswith`, character-based. -/
def endsWithStr (s t : String) : Bool :=
  s.data.drop (s.data.length - t.data.length) == t.data

/-- A Slack `message` event as seen by `handle_message`.  `Option` fields
model the presence/absence of the corresponding dictionary keys. -/
structure MessageEvent where
  channel : String
  ts : String
  client_msg_id : Option String := none
  user : Option String := none
  bot_id : Option String := none
  text : String := ""
  thread_ts : Option String := none
  attachments : List String := []
  files : List String := []
deriving DecidableEq, Repr

/-- A normalized forwarding job.  In the source the job is flattened to
string fields for the Redis stream (`enqueue_forward_job`) and parsed back by
`parse_stream_message`; the claims never concern that serialization, so the
stream carries the structured job here. -/
structure JobPayload where
  type : String
  category : String
  source_channel_id : String
  source_channel_name : String
  target_channel_id : String
  user : String
  ts : String
  thread_ts : Option String := none
  is_thread_reply : Bool := false
  text : String := ""
  attachments : List String := []
  files : List String := []
  bot_id : Nat := 1
deriving DecidableEq, Repr

/-- The shared Redis state: reachability, the key/value space, and the
`forwarding:jobs` stream. -/
structure RedisState where
  reachable : Bool := true
  kv : List (String × String) := []
  stream : List JobPayload := []
deriving DecidableEq, Repr

/-- Association-list lookup for the key/value space (`r.get`). -/
def kvLookup (kv : List (String × String)) (k : String) : Option String :=
  (kv.find? (fun p => p.1 == k)).map (·.2)

/-- `r.set(key, value, nx=True, ex=...)`: raises when the store is
unreachable, otherwise sets only if absent and reports whether it set. -/
def redisSetNX (s : RedisState) (key value : String) :
    Except String (Bool × RedisState) :=
  if s.reachable then
    match kvLookup s.kv key with
    | some _ => .ok (false, s)
    | none => .ok (true, { s with kv := (key, value) :: s.kv })
  else .error "connection error"

/-- `try_fcfs_claim`: first-come-first-serve claim; on a Redis error it logs
and returns `True` (fail-open). -/
def try_fcfs_claim (s : RedisState) (key value : String) : Bool × RedisState :=
  match redisSetNX s key value with
  | .ok (won, s') => (won, s')
  | .error _ => (true, s)

/-- `build_fcfs_key`. -/
def build_fcfs_key (event_type channel_id identifier : String) : String :=
  if event_type == "message_changed" then
    "fcfs:edit:" ++ channel_id ++ ":" ++ identifier
  else
    "fcfs:msg:" ++ channel_id ++ ":" ++ identifier

/-- `enqueue_forward_job`: `XADD` onto `forwarding:jobs`; returns `none` when
the store is unreachable (the exception path returning `None`). -/
def enqueue_forward_job (s : RedisState) (p : JobPayload) :
    Option (Nat × RedisState) :=
  if s.reachable then
    some (s.stream.length, { s with stream := s.stream ++ [p] })
  else none

/-- The hard-coded `IGNORED_CHANNEL_NAMES` list. -/
def IGNORED_CHANNEL_NAMES : List String :=
  ["ccdocs-agents", "ccdocs-admin", "ccdocs-apptbk", "ccdocs-dialer",
   "building-universal-agents", "master-agent", "master-admin-storm"]

/-- The listener's environment: channel-name resolution
(`conversations_info`, `none` modelling a `SlackApiError`), the three
categorization sets, the master-channel configuration, and the bot id. -/
structure ListenerEnv where
  channelName : String → Option String
  managedChannels : List String := []
  stormChannels : List String := []
  ignoredChannels : List String := []
  agentMaster : Option String := none
  apptbkMaster : Option String := none
  managedAdminMaster : Option String := none
  stormAdminMaster : Option String := none
  botId : Nat := 1

/-- `classify_channel`. -/
def classify_channel (env : ListenerEnv) (channel_name : String) :
    Option String :=
  if endsWithStr channel_name "-apptbk" then some "apptbk"
  else if endsWithStr channel_name "-admin" || endsWithStr channel_name "-admins" then
    if env.managedChannels.contains channel_name then some "managed_admin"
    else if env.stormChannels.contains channel_name then some "storm_admin"
    else none
  else if endsWithStr channel_name "-agent" || endsWithStr channel_name "-agents" then
    some "agent"
  else none

/-- `resolve_target_channel`. -/
def resolve_target_channel (env : ListenerEnv) (category : String) :
    Option String :=
  if category == "managed_admin" then env.managedAdminMaster
  else if category == "storm_admin" then env.stormAdminMaster
  else if category == "agent" then env.agentMaster
  else if category == "apptbk" then env.apptbkMaster
  else none

/-- The content signature hashed when `client_msg_id` is missing:
`f"{channel_id}:{event.get('user', 'bot')}:{event.get('text', '')[:50]}"`.
Note the source uses the literal string `'bot'` as the default, not the
event's `bot_id`. -/
def eventSignature (e : MessageEvent) : String :=
  e.channel ++ ":" ++ e.user.getD "bot" ++ ":" ++ takeChars e.text 50

/-- The 16-hex-digit fallback identifier:
`hashlib.md5(event_signature.encode()).hexdigest()[:16]`. -/
def hashIdentifier (e : MessageEvent) : String :=
  takeChars (md5Hexdigest (eventSignature e)) 16

/-- The message identifier computed by `handle_message`: `client_msg_id`
when present and non-empty (Python truthiness), else the content hash. -/
def messageIdentifier (e : MessageEvent) : String :=
  match e.client_msg_id with
  | some cid => if cid == "" then hashIdentifier e else cid
  | none => hashIdentifier e

/-- Modelled from the spec: the identifier §4.4 describes for events without
`client_msg_id` — a hash over `(channel_id, user-or-bot-id,
first-50-chars-of-text)`, i.e. with the event's bot id (not a fixed literal)
when the user field is absent. -/
def specSignature (e : MessageEvent) : String :=
  e.channel ++ ":" ++ (e.user.getD (e.bot_id.getD "unknown")) ++ ":" ++
    takeChars e.text 50

/-- Modelled from the spec: the derived identifier over the spec's three
components. -/
def specIdentifier (e : MessageEvent) : String :=
  takeChars (md5Hexdigest (specSignature e)) 16

/-- `event.get("user") or event.get("bot_id", "unknown")`. -/
def payloadUser (e : MessageEvent) : String :=
  match e.user with
  | some u => if u == "" then e.bot_id.getD "unknown" else u
  | none => e.bot_id.getD "unknown"

/-- `thread_ts is not None and thread_ts != timestamp`. -/
def isThreadReply (e : MessageEvent) : Bool :=
  match e.thread_ts with
  | some t => t != e.ts
  | none => false

/-- Where `handle_message` finished with a given event. -/
inductive ListenerOutcome where
  | droppedDuplicate
  | droppedChannelError
  | droppedIgnored
  | droppedBotMessage
  | droppedUnknownCategory
  | droppedNoTarget
  | enqueueFailed
  | enqueued (category : String)
deriving DecidableEq, Repr

/-- The FCFS claim key `handle_message` builds for an event. -/
def messageClaimKey (e : MessageEvent) : String :=
  build_fcfs_key "message" e.channel (messageIdentifier e)

/-- The claim call performed first by `handle_message`. -/
def claimResult (s : RedisState) (e : MessageEvent) : Bool × RedisState :=
  try_fcfs_claim s (messageClaimKey e) (messageIdentifier e)

/-- The normalized `post` job `handle_message` enqueues. -/
def mkPostPayload (env : ListenerEnv) (e : MessageEvent)
    (channel_name category target_channel : String) : JobPayload :=
  { type := "post"
    category := category
    source_channel_id := e.channel
    source_channel_name := channel_name
    target_channel_id := target_channel
    user := payloadUser e
    ts := e.ts
    thread_ts := e.thread_ts
    is_thread_reply := isThreadReply e
    text := e.text
    attachments := e.attachments
    files := e.files
    bot_id := env.botId }

/-- `handle_message`: claim, resolve name, filter, classify, route, enqueue.
Mirrors the source's control flow, in its order: the FCFS claim happens
first, the ignored-channel check and bot filter afterwards. -/
def handle_message (env : ListenerEnv) (s : RedisState) (e : MessageEvent) :
    ListenerOutcome × RedisState :=
  if !(claimResult s e).1 then (.droppedDuplicate, (claimResult s e).2)
  else
    match env.channelName e.channel with
    | none => (.droppedChannelError, (claimResult s e).2)
    | some channel_name =>
      if IGNORED_CHANNEL_NAMES.contains channel_name ||
          env.ignoredChannels.contains channel_name then
        (.droppedIgnored, (claimResult s e).2)
      else if e.bot_id.isSome && !endsWithStr channel_name "-apptbk" then
        (.droppedBotMessage, (claimResult s e).2)
      else
        match classify_channel env channel_name with
        | none => (.droppedUnknownCategory, (claimResult s e).2)
        | some category =>
          match resolve_target_channel env category with
          | none => (.droppedNoTarget, (claimResult s e).2)
          | some target_channel =>
            match enqueue_forward_job (claimResult s e).2
                (mkPostPayload env e channel_name category target_channel) with
            | some (_, s2) => (.enqueued category, s2)
            | none => (.enqueueFailed, (claimResult s e).2)

/-! ## Forwarder worker (`src/src/core/forwarder_worker.py`)

The chat platform is modelled as an environment of per-call responses
(indexed by a call counter held in the worker state) plus a history oracle;
`convert_to_est` (pytz/strftime rendering) is an opaque formatting function
in the environment.  The worker's externally visible behaviour is recorded
as a trace of actions. -/

/-- Outcome of one `chat_postMessage` / `chat_update` call: success with the
posted message's ts, or a `SlackApiError` with an error code and the value of
the `Retry-After` header (`0` when the header is absent or unparsable). -/
inductive ApiResult where
  | ok (ts : String)
  | apiError (err : String) (retryAfter : Nat)
deriving DecidableEq, Repr

/-- A message returned by `conversations_history`. -/
structure HistMsg where
  ts : String
  text : String := ""
  user : Option String := none
deriving DecidableEq, Repr

/-- The worker's platform environment. `history c t = none` models both an
empty result and a `SlackApiError` (the source treats them alike). -/
structure SlackEnv where
  postResp : Nat → ApiResult
  updResp : Nat → ApiResult
  history : String → String → Option HistMsg
  fmtTime : String → String

/-- Worker-side mutable state: the Redis store plus the platform call
counters selecting the next response from the environment. -/
structure WorkerState where
  redis : RedisState
  postCalls : Nat := 0
  updCalls : Nat := 0
deriving DecidableEq, Repr

/-- Externally visible worker actions, in order of occurrence. -/
inductive Action where
  | fetchHistory (channel latest : String)
  | postMessage (channel text : String) (threadTs : Option String)
  | updateMessage (channel ts text : String)
  | setParentMap (channel parentTs masterTs : String)
  | setMsgMap (channel ts masterTs : String)
  | sleepSec (n : Nat)
  | logNoRetry (err : String)
  | logNoMapping
  | ackJob
deriving DecidableEq, Repr

/-- `MAP_MSG_KEY`. -/
def mapMsgKey (channel_id ts : String) : String :=
  "map:msg:" ++ channel_id ++ ":" ++ ts

/-- `MAP_PARENT_KEY`. -/
def mapParentKey (channel_id parent_ts : String) : String :=
  "map:parent:" ++ channel_id ++ ":" ++ parent_ts

/-- `get_master_ts_for_message`: `r.get`, `None` on any Redis error. -/
def get_master_ts_for_message (s : RedisState) (ch ts : String) :
    Option String :=
  if s.reachable then kvLookup s.kv (mapMsgKey ch ts) else none

/-- `set_master_ts_for_message`: `r.set` with 7-day TTL, errors swallowed.
Returns the store and the write's visible action (empty if it failed). -/
def set_master_ts_for_message (s : RedisState) (ch ts master : String) :
    RedisState × List Action :=
  if s.reachable then
    ({ s with kv := (mapMsgKey ch ts, master) :: s.kv },
     [.setMsgMap ch ts master])
  else (s, [])

/-- `get_master_ts_for_parent`. -/
def get_master_ts_for_parent (s : RedisState) (ch parent_ts : String) :
    Option String :=
  if s.reachable then kvLookup s.kv (mapParentKey ch parent_ts) else none

/-- `set_master_ts_for_parent`. -/
def set_master_ts_for_parent (s : RedisState) (ch parent_ts master : String) :
    RedisState × List Action :=
  if s.reachable then
    ({ s with kv := (mapParentKey ch parent_ts, master) :: s.kv },
     [.setParentMap ch parent_ts master])
  else (s, [])

/-- The forwarded text format
`"*From #{name}*\n{text}\n_Posted by <@{user}> at {est}_"`. -/
def renderMessage (name text user est : String) : String :=
  "*From #" ++ name ++ "*\n" ++ text ++ "\n_Posted by <@" ++ user ++
    "> at " ++ est ++ "_"

/-- `ensure_parent_posted`: return the master-channel ts of the thread
parent, synthesizing and recording it on a `ParentMap` miss; `none` when the
original parent cannot be fetched or the synthetic post fails (the caught
`SlackApiError` path). -/
def ensure_parent_posted (env : SlackEnv) (st : WorkerState) (p : JobPayload) :
    Option String × WorkerState × List Action :=
  match p.thread_ts with
  | none => (none, st, [])
  | some tts =>
    if tts == "" then (none, st, [])
    else
      match get_master_ts_for_parent st.redis p.source_channel_id tts with
      | some m =>
        if m == "" then (none, st, [.fetchHistory p.source_channel_id tts])
        else (some m, st, [])
      | none =>
        match env.history p.source_channel_id tts with
        | none => (none, st, [.fetchHistory p.source_channel_id tts])
        | some msg =>
          match env.postResp st.postCalls with
          | .ok mts =>
            (some mts,
             { st with postCalls := st.postCalls + 1, redis :=
                (set_master_ts_for_parent st.redis p.source_channel_id
                  msg.ts mts).1 },
             [.fetchHistory p.source_channel_id tts,
              .postMessage p.target_channel_id
                (renderMessage p.source_channel_name msg.text
                  (msg.user.getD "unknown") (env.fmtTime msg.ts)) none] ++
              (set_master_ts_for_parent st.redis p.source_channel_id
                msg.ts mts).2)
          | .apiError _ _ =>
            (none, { st with postCalls := st.postCalls + 1 },
             [.fetchHistory p.source_channel_id tts,
              .postMessage p.target_channel_id
                (renderMessage p.source_channel_name msg.text
                  (msg.user.getD "unknown") (env.fmtTime msg.ts)) none])

/-- The transient error codes retried with exponential backoff. -/
def transientErrs : List String :=
  ["ratelimited", "rate_limited", "internal_error", "unknown_error"]

/-- The `for attempt in range(4)` retry loop around `chat_postMessage`
(`handle_post_job` lines 218–242).  `fuel` counts the remaining loop
iterations (called with `4`), `attempt` the Python loop variable. -/
def postLoop (env : SlackEnv) (fuel attempt backoff : Nat) (st : WorkerState)
    (p : JobPayload) (msgText : String) (threadTs : Option String) :
    WorkerState × List Action :=
  match fuel with
  | 0 => (st, [])
  | f + 1 =>
    match env.postResp st.postCalls with
    | .ok master_ts =>
      if p.ts == "" then
        ({ st with postCalls := st.postCalls + 1 },
         [.postMessage p.target_channel_id msgText threadTs])
      else
        ({ st with postCalls := st.postCalls + 1, redis :=
            (set_master_ts_for_message st.redis p.source_channel_id p.ts
              master_ts).1 },
         .postMessage p.target_channel_id msgText threadTs ::
           (set_master_ts_for_message st.redis p.source_channel_id p.ts
             master_ts).2)
    | .apiError err retry_after =>
      if 0 < retry_after then
        ((postLoop env f (attempt + 1) backoff
            { st with postCalls := st.postCalls + 1 } p msgText threadTs).1,
         .postMessage p.target_channel_id msgText threadTs ::
           .sleepSec retry_after ::
           (postLoop env f (attempt + 1) backoff
             { st with postCalls := st.postCalls + 1 } p msgText threadTs).2)
      else if transientErrs.contains err && attempt < 3 then
        ((postLoop env f (attempt + 1) (backoff * 2)
            { st with postCalls := st.postCalls + 1 } p msgText threadTs).1,
         .postMessage p.target_channel_id msgText threadTs ::
           .sleepSec backoff ::
           (postLoop env f (attempt + 1) (backoff * 2)
             { st with postCalls := st.postCalls + 1 } p msgText threadTs).2)
      else
        ({ st with postCalls := st.postCalls + 1 },
         [.postMessage p.target_channel_id msgText threadTs,
          .logNoRetry err])

/-- `thread_ts` truthiness (`if is_thread_reply and thread_ts`). -/
def threadTruthy (p : JobPayload) : Bool :=
  match p.thread_ts with
  | some t => t != ""
  | none => false

/-- The parent-resolution step of `handle_post_job`
(`if is_thread_reply and thread_ts`). -/
def threadResolution (env : SlackEnv) (st : WorkerState) (p : JobPayload) :
    Option String × WorkerState × List Action :=
  if p.is_thread_reply && threadTruthy p then ensure_parent_posted env st p
  else (none, st, [])

/-- The text `handle_post_job` renders for the forwarded message. -/
def postText (env : SlackEnv) (p : JobPayload) : String :=
  renderMessage p.source_channel_name p.text p.user
    (if p.ts == "" then "" else env.fmtTime p.ts)

/-- `handle_post_job`: render, resolve the thread parent if needed, then post
with the retry envelope and record the `MsgMap` entry on success. -/
def handle_post_job (env : SlackEnv) (st : WorkerState) (p : JobPayload) :
    WorkerState × List Action :=
  ((postLoop env 4 0 1 (threadResolution env st p).2.1 p (postText env p)
      (threadResolution env st p).1).1,
   (threadResolution env st p).2.2 ++
     (postLoop env 4 0 1 (threadResolution env st p).2.1 p (postText env p)
       (threadResolution env st p).1).2)

/-- The retry loop around `chat_update` (`handle_update_job` lines 258–279),
identical envelope, no map write on success. -/
def updLoop (env : SlackEnv) (fuel attempt backoff : Nat) (st : WorkerState)
    (p : JobPayload) (master_ts : String) : WorkerState × List Action :=
  match fuel with
  | 0 => (st, [])
  | f + 1 =>
    match env.updResp st.updCalls with
    | .ok _ =>
      ({ st with updCalls := st.updCalls + 1 },
       [.updateMessage p.target_channel_id master_ts p.text])
    | .apiError err retry_after =>
      if 0 < retry_after then
        ((updLoop env f (attempt + 1) backoff
            { st with updCalls := st.updCalls + 1 } p master_ts).1,
         .updateMessage p.target_channel_id master_ts p.text ::
           .sleepSec retry_after ::
           (updLoop env f (attempt + 1) backoff
             { st with updCalls := st.updCalls + 1 } p master_ts).2)
      else if transientErrs.contains err && attempt < 3 then
        ((updLoop env f (attempt + 1) (backoff * 2)
            { st with updCalls := st.updCalls + 1 } p master_ts).1,
         .updateMessage p.target_channel_id master_ts p.text ::
           .sleepSec backoff ::
           (updLoop env f (attempt + 1) (backoff * 2)
             { st with updCalls := st.updCalls + 1 } p master_ts).2)
      else
        ({ st with updCalls := st.updCalls + 1 },
         [.updateMessage p.target_channel_id master_ts p.text,
          .logNoRetry err])

/-- `handle_update_job`: look up `MsgMap`; absent (or unreachable store) →
log and return with no other side effect; present → update the mapped
message. -/
def handle_update_job (env : SlackEnv) (st : WorkerState) (p : JobPayload) :
    WorkerState × List Action :=
  match get_master_ts_for_message st.redis p.source_channel_id p.ts with
  | none => (st, [.logNoMapping])
  | some m =>
    if m == "" then (st, [.logNoMapping])
    else updLoop env 4 0 1 st p m

/-- One iteration of the worker's `main` loop for a single stream entry:
dispatch on the job type, then `XACK` (the source acks both on normal return
and in the exception handler). -/
def processJob (env : SlackEnv) (st : WorkerState) (p : JobPayload) :
    WorkerState × List Action :=
  if p.type == "update" then
    ((handle_update_job env st p).1,
     (handle_update_job env st p).2 ++ [.ackJob])
  else
    ((handle_post_job env st p).1,
     (handle_post_job env st p).2 ++ [.ackJob])

/-! ## Channel assignment (`src/src/config/multi_bot_config.py`)

`channel_assignments` is a finite map `channel_id → bot_index`; the Python
dict is modelled as a function to `Option Nat` (insertion order is
irrelevant to every claim). -/

/-- The assignment table. -/
def Assignments : Type := String → Option Nat

/-- Writing one new channel's assignment:
`self.channel_assignments[channel_id] = (md5_int mod N) + 1`. -/
def assignOne (numBots : Nat) (acc : Assignments) (ch : String) : Assignments :=
  fun x => if x == ch then some (md5Int ch % numBots + 1) else acc x

/-- `assign_channels_to_bots` (the update of `channel_assignments`): splits
the inputs into new and existing channels against the current table, hashes
only the new ones, and never touches existing entries.  The returned per-bot
grouping of the source is not modelled (no claim concerns it). -/
def assign_channels_to_bots (m : Assignments) (numBots : Nat)
    (channelIds : List String) : Assignments :=
  (channelIds.filter (fun ch => (m ch).isNone)).foldl (assignOne numBots) m

/-! ## Supervisor (`src/src/core/multi_bot_launcher.py`) -/

/-- A spawned child process. -/
inductive Proc where
  | listener (botId : Nat)
  | worker
deriving DecidableEq, Repr

/-- `int(os.environ.get("FORWARDER_WORKER_COUNT", "1"))` with the
`except → 1` fallback. -/
def parse_worker_count (env : Option String) : Int :=
  match env with
  | none => 1
  | some s => s.toInt?.getD 1

/-- `MultiBotLauncher.start_worker`: returns immediately if a worker process
is already alive; otherwise spawns a single worker process — the
`worker_count` argument is accepted but not used ("For now, start a single
worker"). -/
def start_worker (workerAlive : Bool) (_workerCount : Int) : List Proc :=
  if workerAlive then [] else [.worker]

/-- `MultiBotLauncher.start_all_bots`: parse `FORWARDER_WORKER_COUNT`, start
the worker first, then one listener process per configured bot. -/
def start_all_bots (botIds : List Nat) (envWorkerCount : Option String) :
    List Proc :=
  let workerCount := parse_worker_count envWorkerCount
  start_worker false workerCount ++ botIds.map Proc.listener

/-- Number of worker processes among the spawned children. -/
def countWorkers (ps : List Proc) : Nat :=
  (ps.filter (fun p => p == .worker)).length

/-- Number of listener processes among the spawned children. -/
def countListeners (ps : List Proc) : Nat :=
  (ps.filter (fun p => match p with | .listener _ => true | _ => false)).length

/-! ## Observation helpers and concrete scenarios

Small predicates over the model, and the concrete environments, events and
jobs used to evaluate the theorems on explicit inputs. -/

/-- A lowercase hexadecimal character. -/
def isHexChar (c : Char) : Prop := c ∈ "0123456789abcdef".data

/-- Number of `chat_postMessage` calls recorded in a trace. -/
def countPosts (tr : List Action) : Nat :=
  (tr.filter fun a => match a with
    | .postMessage _ _ _ => true
    | _ => false).length

/-- An unreachable Redis store. -/
def downRedis : RedisState := { reachable := false }

/-- A bot-originated event without `client_msg_id` and without a `user`
field. -/
def botEvent : MessageEvent :=
  { channel := "C123", ts := "1700000000.000100", bot_id := some "B001",
    text := "hello" }

/-- Channel `C1` resolves to `ccdocs-admin`, the hard-coded ignored name. -/
def ignoredEnv : ListenerEnv :=
  { channelName := fun c => if c == "C1" then some "ccdocs-admin" else none }

/-- An ordinary user message arriving in channel `C1`. -/
def ignoredEvent : MessageEvent :=
  { channel := "C1", ts := "1700000000.000100", client_msg_id := some "x" }

/-- Channel `C4` resolves to `ccdocs-apptbk`: an `-apptbk`-suffixed name on
the hard-coded ignore list. -/
def apptbkIgnoredEnv : ListenerEnv :=
  { channelName := fun c => if c == "C4" then some "ccdocs-apptbk" else none,
    apptbkMaster := some "MAPT" }

/-- A bot-originated message in channel `C4`. -/
def apptbkIgnoredEvent : MessageEvent :=
  { channel := "C4", ts := "1.2", client_msg_id := some "y",
    bot_id := some "B9" }

/-- `C5` is a live apptbk channel, anything else an admin channel. -/
def apptbkLiveEnv : ListenerEnv :=
  { channelName := fun c => if c == "C5" then some "acme-apptbk"
      else some "acme-admin",
    apptbkMaster := some "MAPT" }

/-- A bot-originated message in the live apptbk channel `C5`. -/
def apptbkBotEvent : MessageEvent :=
  { channel := "C5", ts := "1.2", client_msg_id := some "z",
    bot_id := some "B9" }

/-- A bot-originated message in the non-apptbk channel `C6`. -/
def adminBotEvent : MessageEvent :=
  { channel := "C6", ts := "1.3", client_msg_id := some "w",
    bot_id := some "B9" }

/-- Every channel resolves to the agent channel `acme-agent`. -/
def agentEnv : ListenerEnv :=
  { channelName := fun _ => some "acme-agent", agentMaster := some "MA" }

/-- Two distinct user messages in `C7` agreeing on user and text but not on
ts, both lacking `client_msg_id`. -/
def burstEvent1 : MessageEvent :=
  { channel := "C7", ts := "1.1", user := some "U1", text := "same text" }

/-- The later twin of `burstEvent1`. -/
def burstEvent2 : MessageEvent :=
  { channel := "C7", ts := "1.2", user := some "U1", text := "same text" }

/-- A platform where every post succeeds but the thread parent cannot be
fetched (`conversations_history` empty or failing). -/
def orphanEnv : SlackEnv :=
  { postResp := fun _ => .ok "T1", updResp := fun _ => .ok "U1",
    history := fun _ _ => none, fmtTime := fun _ => "EST" }

/-- A fresh worker over a reachable store. -/
def freshWorker : WorkerState := { redis := {} }

/-- A thread-reply post job whose parent is `100.1` in `CS`. -/
def replyJob : JobPayload :=
  { type := "post", category := "agent", source_channel_id := "CS",
    source_channel_name := "acme-agent", target_channel_id := "MT",
    user := "U1", ts := "100.2", thread_ts := some "100.1",
    is_thread_reply := true, text := "re" }

/-- Like `orphanEnv` but the parent `100.1` exists in the source channel. -/
def parentEnv : SlackEnv :=
  { postResp := fun _ => .ok "T1", updResp := fun _ => .ok "U1",
    history := fun c t =>
      if c == "CS" && t == "100.1" then
        some { ts := "100.1", text := "root", user := some "U0" }
      else none,
    fmtTime := fun _ => "EST" }

/-- A platform that always answers HTTP 429 with `Retry-After: 3`. -/
def ratelimitedEnv : SlackEnv :=
  { postResp := fun _ => .apiError "ratelimited" 3,
    updResp := fun _ => .ok "U", history := fun _ _ => none,
    fmtTime := fun _ => "E" }

/-- A plain post job (no thread, empty ts so no map write). -/
def plainJob : JobPayload :=
  { type := "post", category := "agent", source_channel_id := "CS",
    source_channel_name := "acme-agent", target_channel_id := "MT",
    user := "U1", ts := "" }

/-- First call rate-limited with `Retry-After: 7`, then success. -/
def retryAfterEnv : SlackEnv :=
  { postResp := fun i => if i == 0 then .apiError "err_x" 7 else .ok "T9",
    updResp := fun _ => .ok "U", history := fun _ _ => none,
    fmtTime := fun _ => "E" }

/-- Three transient errors without `Retry-After`, then success. -/
def backoffEnv : SlackEnv :=
  { postResp := fun i => if i < 3 then .apiError "rate_limited" 0 else .ok "T9",
    updResp := fun _ => .ok "U", history := fun _ _ => none,
    fmtTime := fun _ => "E" }

/-- A permanent error (`channel_not_found`) on every call. -/
def permErrorEnv : SlackEnv :=
  { postResp := fun _ => .apiError "channel_not_found" 0,
    updResp := fun _ => .ok "U", history := fun _ _ => none,
    fmtTime := fun _ => "E" }

/-- A transient error without `Retry-After` on every call. -/
def transientForeverEnv : SlackEnv :=
  { postResp := fun _ => .apiError "internal_error" 0,
    updResp := fun _ => .apiError "internal_error" 0,
    history := fun _ _ => none, fmtTime := fun _ => "E" }

/-- A worker whose `MsgMap` maps `(CS, 50.1)` to `T1`. -/
def mappedWorker : WorkerState :=
  { redis := { kv := [(mapMsgKey "CS" "50.1", "T1")] } }

/-- A worker whose `ParentMap` maps `(CS, 100.1)` to `T0`. -/
def parentMappedWorker : WorkerState :=
  { redis := { kv := [(mapParentKey "CS" "100.1", "T0")] } }

/-- An update platform environment whose updates succeed. -/
def updateOkEnv : SlackEnv :=
  { postResp := fun _ => .ok "X", updResp := fun _ => .ok "U9",
    history := fun _ _ => none, fmtTime := fun _ => "E" }

/-- An update job for source message `(CS, 50.1)`. -/
def updateJob : JobPayload :=
  { type := "update", category := "agent", source_channel_id := "CS",
    source_channel_name := "acme-agent", target_channel_id := "MT",
    user := "U1", ts := "50.1", text := "edited" }

/-- An assignment table holding only channel `AAA` on bot 2. -/
def seededAssignments : Assignments :=
  fun x => if x == "AAA" then some 2 else none

/-! ## Theorems -/

/-- **C1.** If the state store is unreachable — the set-if-absent call
raises — `try_fcfs_claim` returns `True` (fail-open) and leaves the store
untouched: the caller proceeds as if it won the claim instead of dropping
the event. -/
theorem claim_fail_open (s : RedisState) (k v : String)
    (h : s.reachable = false) :
    (∃ msg, redisSetNX s k v = .error msg) ∧
    try_fcfs_claim s k v = (true, s) := by
  refine ⟨⟨"connection error", ?_⟩, ?_⟩ <;>
    simp [redisSetNX, try_fcfs_claim, h]

/-- Witness for C1: the fail-open fallback on a concrete unreachable
store. -/
theorem claim_fail_open_witness :
    downRedis.reachable = false ∧
    try_fcfs_claim downRedis "fcfs:msg:C1:x" "x" = (true, downRedis) :=
  ⟨rfl, (claim_fail_open downRedis "fcfs:msg:C1:x" "x" rfl).2⟩

/-- Folding the new-channel writes never touches a key outside the folded
list. -/
theorem assign_foldl_not_mem (N : Nat) (ch : String) :
    ∀ (l : List String) (acc : Assignments), ch ∉ l →
      l.foldl (assignOne N) acc ch = acc ch := by
  intro l
  induction l with
  | nil => intro acc _; rfl
  | cons c cs ih =>
    intro acc h
    have hns : ch ∉ cs := fun hm => h (List.mem_cons_of_mem _ hm)
    have hne : ch ≠ c := fun he => h (he ▸ List.mem_cons_self c cs)
    rw [List.foldl_cons, ih _ hns]
    simp [assignOne, hne]

/-- Every channel in the folded list ends up assigned to its hash bucket. -/
theorem assign_foldl_mem (N : Nat) (ch : String) :
    ∀ (l : List String) (acc : Assignments), ch ∈ l →
      l.foldl (assignOne N) acc ch = some (md5Int ch % N + 1) := by
  intro l
  induction l with
  | nil => intro acc h; cases h
  | cons c cs ih =>
    intro acc h
    by_cases hcs : ch ∈ cs
    · rw [List.foldl_cons]; exact ih _ hcs
    · have heq : ch = c := by
        rcases List.mem_cons.mp h with h1 | h2
        · exact h1
        · exact absurd h2 hcs
      subst heq
      rw [List.foldl_cons, assign_foldl_not_mem N ch cs _ hcs]
      simp [assignOne]

/-- **C8.** `assign_channels_to_bots` never re-hashes an existing
assignment: any channel already in the table keeps its bot index, however
many new channels appear and whatever the current bot count `N` is; and
every new channel is assigned `(md5_int(channel_id) mod N) + 1`. -/
theorem assignment_stability (m : Assignments) (N : Nat) (cids : List String)
    (_hN : 0 < N) :
    (∀ ch b, m ch = some b → assign_channels_to_bots m N cids ch = some b) ∧
    (∀ ch, m ch = none → ch ∈ cids →
      assign_channels_to_bots m N cids ch = some (md5Int ch % N + 1)) := by
  constructor
  · intro ch b hb
    unfold assign_channels_to_bots
    have hnm : ch ∉ cids.filter (fun ch => (m ch).isNone) := by
      intro hm
      have := (List.mem_filter.mp hm).2
      simp [hb] at this
    rw [assign_foldl_not_mem N ch _ m hnm, hb]
  · intro ch h0 hin
    unfold assign_channels_to_bots
    have hm : ch ∈ cids.filter (fun ch => (m ch).isNone) :=
      List.mem_filter.mpr ⟨hin, by simp [h0]⟩
    exact assign_foldl_mem N ch _ m hm

/-- Witness for C8: channel `AAA` (pre-assigned to bot 2) is untouched while
new channel `BBB` is hashed onto the single bot. -/
theorem assignment_stability_witness :
    assign_channels_to_bots seededAssignments 1 ["AAA", "BBB"] "AAA" =
      some 2 ∧
    assign_channels_to_bots seededAssignments 1 ["AAA", "BBB"] "BBB" =
      some 1 := by
  have h := assignment_stability seededAssignments 1 ["AAA", "BBB"]
    (by decide)
  refine ⟨h.1 "AAA" 2 (by decide), ?_⟩
  have h2 := h.2 "BBB" (by decide) (by decide)
  simpa [Nat.mod_one] using h2

/-- Hex rendering doubles the byte count. -/
theorem length_flatMap_hexByte (l : List Nat) :
    (l.flatMap hexByte).length = 2 * l.length := by
  induction l with
  | nil => rfl
  | cons b l ih => simp [List.flatMap_cons, hexByte, ih]; ring

/-- An MD5 digest is 16 bytes. -/
theorem md5Digest_length (msg : List Nat) : (md5Digest msg).length = 16 := by
  simp [md5Digest, leBytes4]

/-- `hexdigest()` is 32 characters. -/
theorem md5Hexdigest_length (s : String) : (md5Hexdigest s).length = 32 := by
  show ((md5Digest (utf8Bytes s)).flatMap hexByte).length = 32
  rw [length_flatMap_hexByte, md5Digest_length]

/-- Python slicing of the model: length of `s[:n]`. -/
theorem takeChars_length (s : String) (n : Nat) :
    (takeChars s n).length = min n s.length := by
  show (s.data.take n).length = min n s.data.length
  simp [List.length_take]

/-- `hexDigit` always yields a lowercase hex character. -/
theorem hexDigit_isHex (n : Nat) : isHexChar (hexDigit n) := by
  have h : n % 16 < 16 := Nat.mod_lt _ (by norm_num)
  unfold hexDigit isHexChar
  set m := n % 16 with hm
  interval_cases m <;> decide

/-- Every character of `hexdigest()` is a lowercase hex character. -/
theorem md5Hexdigest_isHex (s : String) :
    ∀ c ∈ (md5Hexdigest s).data, isHexChar c := by
  intro c hc
  simp only [md5Hexdigest] at hc
  rw [List.mem_flatMap] at hc
  obtain ⟨b, _, hb⟩ := hc
  simp only [hexByte, List.mem_cons, List.mem_singleton] at hb
  rcases hb with h | h | h
  · exact h ▸ hexDigit_isHex _
  · exact h ▸ hexDigit_isHex _
  · cases h

/-- Events agreeing on channel, user field and first-50 text hash to the
same fallback identifier, whatever their timestamps. -/
theorem messageIdentifier_congr (e1 e2 : MessageEvent)
    (h1 : e1.client_msg_id = none ∨ e1.client_msg_id = some "")
    (h2 : e2.client_msg_id = none ∨ e2.client_msg_id = some "")
    (hch : e1.channel = e2.channel) (hu : e1.user = e2.user)
    (htxt : takeChars e1.text 50 = takeChars e2.text 50) :
    messageIdentifier e1 = messageIdentifier e2 := by
  have hid1 : messageIdentifier e1 = hashIdentifier e1 := by
    rcases h1 with h | h <;> simp [messageIdentifier, h]
  have hid2 : messageIdentifier e2 = hashIdentifier e2 := by
    rcases h2 with h | h <;> simp [messageIdentifier, h]
  have hsig : eventSignature e1 = eventSignature e2 := by
    unfold eventSignature; rw [hch, hu, htxt]
  rw [hid1, hid2]; unfold hashIdentifier; rw [hsig]

/-- **C2 (amended).** For events without a (non-empty) `client_msg_id` the
listener derives a deterministic 16-hex-digit identifier hashed over
`(channel_id, user-field-or-the-literal-"bot", first 50 characters of
text)`: two such events agreeing on those components get equal identifiers,
and the platform timestamp is never an input to the identifier. -/
theorem derived_identifier_deterministic (e1 e2 : MessageEvent)
    (h1 : e1.client_msg_id = none ∨ e1.client_msg_id = some "")
    (h2 : e2.client_msg_id = none ∨ e2.client_msg_id = some "")
    (hch : e1.channel = e2.channel) (hu : e1.user = e2.user)
    (htxt : takeChars e1.text 50 = takeChars e2.text 50) :
    messageIdentifier e1 = messageIdentifier e2 ∧
    (messageIdentifier e1).length = 16 ∧
    (∀ c ∈ (messageIdentifier e1).data, isHexChar c) ∧
    (∀ t, messageIdentifier { e1 with ts := t } = messageIdentifier e1) := by
  have hid1 : messageIdentifier e1 = hashIdentifier e1 := by
    rcases h1 with h | h <;> simp [messageIdentifier, h]
  refine ⟨messageIdentifier_congr e1 e2 h1 h2 hch hu htxt, ?_, ?_, ?_⟩
  · rw [hid1]; unfold hashIdentifier
    rw [takeChars_length, md5Hexdigest_length]
    decide
  · rw [hid1]; intro c hc
    exact md5Hexdigest_isHex _ c (List.take_subset _ _ hc)
  · intro t; cases e1; rfl

/-- Counterexample for C2 as stated: for a bot-originated event without a
`user` field, the identifier is **not** the hash over `(channel_id,
user-or-bot-id, first-50-of-text)` — the source hashes the literal string
`'bot'`, not the event's bot id. -/
theorem derived_identifier_counterexample :
    botEvent.client_msg_id = none ∧ botEvent.user = none ∧
    botEvent.bot_id = some "B001" ∧
    messageIdentifier botEvent ≠ specIdentifier botEvent :=
  ⟨rfl, rfl, rfl, by decide⟩

/-- Witness for C2: two concrete events differing only in ts get the same
derived identifier. -/
theorem derived_identifier_witness :
    messageIdentifier burstEvent1 = messageIdentifier burstEvent2 ∧
    (messageIdentifier burstEvent1).length = 16 := by
  have h := derived_identifier_deterministic burstEvent1 burstEvent2
    (Or.inl rfl) (Or.inl rfl) rfl rfl rfl
  exact ⟨h.1, h.2.1⟩

/-- Worker processes among spawned children distribute over append. -/
theorem countWorkers_append (a b : List Proc) :
    countWorkers (a ++ b) = countWorkers a + countWorkers b := by
  simp [countWorkers, List.filter_append]

/-- Listener processes among spawned children distribute over append. -/
theorem countListeners_append (a b : List Proc) :
    countListeners (a ++ b) = countListeners a + countListeners b := by
  simp [countListeners, List.filter_append]

/-- Spawned listener processes contain no worker. -/
theorem countWorkers_map_listener (l : List Nat) :
    countWorkers (l.map Proc.listener) = 0 := by
  induction l with
  | nil => rfl
  | cons a l ih => simp [countWorkers, List.filter_cons, ih]

/-- One listener process is spawned per configured bot. -/
theorem countListeners_map_listener (l : List Nat) :
    countListeners (l.map Proc.listener) = l.length := by
  induction l with
  | nil => rfl
  | cons a l ih => simpa [countListeners, List.filter_cons] using ih

/-- **C9 (corrected).** `start_all_bots` spawns one listener process per
configured bot identity plus exactly **one** forwarder worker process:
`start_worker` accepts the parsed `FORWARDER_WORKER_COUNT` but ignores it. -/
theorem supervisor_spawn (botIds : List Nat) (env : Option String) :
    countListeners (start_all_bots botIds env) = botIds.length ∧
    countWorkers (start_all_bots botIds env) = 1 := by
  constructor
  · rw [start_all_bots, countListeners_append, countListeners_map_listener]
    simp [start_worker, countListeners]
  · rw [start_all_bots, countWorkers_append, countWorkers_map_listener]
    simp [start_worker, countWorkers]

/-- Counterexample for C9 as stated: with `FORWARDER_WORKER_COUNT=3` and one
bot, the supervisor starts 1 worker process, not `max(1, 3) = 3`. -/
theorem supervisor_spawn_counterexample :
    countWorkers (start_all_bots [1] (some "3")) = 1 ∧
    countWorkers (start_all_bots [1] (some "3")) ≠ max 1 3 := by
  have h := (supervisor_spawn [1] (some "3")).2
  exact ⟨h, by rw [h]; decide⟩

/-- A lost FCFS claim leaves the store untouched. -/
theorem try_fcfs_claim_lost (s : RedisState) (k v w : String)
    (hr : s.reachable = true) (hk : kvLookup s.kv k = some w) :
    try_fcfs_claim s k v = (false, s) := by
  simp [try_fcfs_claim, redisSetNX, hr, hk]

/-- A fresh FCFS claim on a reachable store wins and writes the key. -/
theorem try_fcfs_claim_won (s : RedisState) (k v : String)
    (hr : s.reachable = true) (hk : kvLookup s.kv k = none) :
    try_fcfs_claim s k v = (true, { s with kv := (k, v) :: s.kv }) := by
  simp [try_fcfs_claim, redisSetNX, hr, hk]

/-- The claim call never changes reachability or the stream. -/
theorem try_fcfs_claim_state (s : RedisState) (k v : String) :
    (try_fcfs_claim s k v).2.reachable = s.reachable ∧
    (try_fcfs_claim s k v).2.stream = s.stream := by
  unfold try_fcfs_claim redisSetNX
  cases hr : s.reachable
  · simp_all
  · cases hk : kvLookup s.kv k <;> simp_all

/-- After a claim on a reachable store the key is present (it was either
just set or already there). -/
theorem try_fcfs_claim_key (s : RedisState) (k v : String)
    (hr : s.reachable = true) :
    (kvLookup (try_fcfs_claim s k v).2.kv k).isSome = true := by
  unfold try_fcfs_claim redisSetNX
  rw [hr]
  simp only [if_true]
  cases hk : kvLookup s.kv k with
  | some w => simp [hk]
  | none => simp [kvLookup, List.find?]

/-- Whatever `handle_message` decides, the resulting key/value space is the
post-claim one, reachability is untouched, and the stream grows by at most
one entry. -/
theorem handle_message_state (env : ListenerEnv) (s : RedisState)
    (e : MessageEvent) :
    (handle_message env s e).2.kv = (claimResult s e).2.kv ∧
    (handle_message env s e).2.reachable = s.reachable ∧
    (handle_message env s e).2.stream.length ≤ s.stream.length + 1 := by
  have hst := try_fcfs_claim_state s (messageClaimKey e) (messageIdentifier e)
  have h1 : (claimResult s e).2.reachable = s.reachable := hst.1
  have h2 : (claimResult s e).2.stream = s.stream := hst.2
  unfold handle_message
  split
  · exact ⟨rfl, h1, by rw [h2]; omega⟩
  · split
    · exact ⟨rfl, h1, by rw [h2]; omega⟩
    · split
      · exact ⟨rfl, h1, by rw [h2]; omega⟩
      · split
        · exact ⟨rfl, h1, by rw [h2]; omega⟩
        · split
          · exact ⟨rfl, h1, by rw [h2]; omega⟩
          · split
            · exact ⟨rfl, h1, by rw [h2]; omega⟩
            · split
              · next s2 heq =>
                unfold enqueue_forward_job at heq
                split at heq
                · injection heq with h'
                  injection h' with hfst hs2
                  subst hs2
                  refine ⟨rfl, h1, ?_⟩
                  simp only [List.length_append, List.length_singleton]
                  rw [h2]
                · cases heq
              · exact ⟨rfl, h1, by rw [h2]; omega⟩

/-- If the claim key is already taken on a reachable store, the event is
dropped as a duplicate with no state change at all. -/
theorem handle_message_duplicate (env : ListenerEnv) (s : RedisState)
    (e : MessageEvent) (w : String) (hr : s.reachable = true)
    (hk : kvLookup s.kv (messageClaimKey e) = some w) :
    handle_message env s e = (.droppedDuplicate, s) := by
  have hc : claimResult s e = (false, s) :=
    try_fcfs_claim_lost s (messageClaimKey e) (messageIdentifier e) w hr hk
  unfold handle_message
  rw [hc]
  simp

/-- **C3 (amended).** An event from an ignored channel is dropped — never
enqueued — but only **after** the FCFS claim: on a reachable store the claim
key ends up written even though the event goes no further. -/
theorem ignored_channel_drop (env : ListenerEnv) (s : RedisState)
    (e : MessageEvent) (nm : String)
    (hn : env.channelName e.channel = some nm)
    (hig : nm ∈ IGNORED_CHANNEL_NAMES ∨ nm ∈ env.ignoredChannels) :
    ((handle_message env s e).1 = .droppedIgnored ∨
      (handle_message env s e).1 = .droppedDuplicate) ∧
    (handle_message env s e).2.stream = s.stream ∧
    (s.reachable = true →
      (kvLookup (handle_message env s e).2.kv (messageClaimKey e)).isSome =
        true) := by
  have h2 : (claimResult s e).2.stream = s.stream :=
    (try_fcfs_claim_state s (messageClaimKey e) (messageIdentifier e)).2
  have hkey : s.reachable = true →
      (kvLookup (handle_message env s e).2.kv (messageClaimKey e)).isSome =
        true := by
    intro hr
    rw [(handle_message_state env s e).1]
    exact try_fcfs_claim_key _ _ _ hr
  refine ⟨?_, ?_, hkey⟩
  · unfold handle_message
    cases hcl : (claimResult s e).1
    · simp
    · simp [hcl, hn, hig]
  · unfold handle_message
    cases hcl : (claimResult s e).1 <;> simp [hcl, hn, hig, h2]

/-- Witness for C3 (amended): a concrete ignored-channel event is dropped
with the queue untouched, and the claim key was written first. -/
theorem ignored_channel_drop_witness :
    ((handle_message ignoredEnv {} ignoredEvent).1 = .droppedIgnored ∨
      (handle_message ignoredEnv {} ignoredEvent).1 = .droppedDuplicate) ∧
    (handle_message ignoredEnv {} ignoredEvent).2.stream =
      RedisState.stream {} ∧
    (kvLookup (handle_message ignoredEnv {} ignoredEvent).2.kv
      (messageClaimKey ignoredEvent)).isSome = true := by
  have h := ignored_channel_drop ignoredEnv {} ignoredEvent "ccdocs-admin"
    (by decide) (by decide)
  exact ⟨h.1, h.2.1, h.2.2 rfl⟩

/-- Counterexample for C3 as stated: for the ignored channel `ccdocs-admin`
the listener does **not** drop before the claim — the claim key is written
to the store (the queue stays empty). -/
theorem ignored_channel_drop_counterexample :
    (handle_message ignoredEnv {} ignoredEvent).1 = .droppedIgnored ∧
    kvLookup (handle_message ignoredEnv {} ignoredEvent).2.kv
      (messageClaimKey ignoredEvent) = some "x" ∧
    (handle_message ignoredEnv {} ignoredEvent).2.stream = [] := by
  refine ⟨by decide, by decide, by decide⟩

/-- A name ending in `-apptbk` classifies as `apptbk`. -/
theorem classify_apptbk (env : ListenerEnv) (nm : String)
    (ha : endsWithStr nm "-apptbk" = true) :
    classify_channel env nm = some "apptbk" := by
  simp [classify_channel, ha]

/-- **C4 (amended).** Bot-originated events in an `-apptbk` channel pass the
bot filter and are enqueued (provided the channel is not ignored, the claim
is won, the apptbk master is configured and the store is reachable); in
every other channel a bot-originated event is never enqueued. -/
theorem apptbk_bot_rule :
    (∀ (env : ListenerEnv) (s : RedisState) (e : MessageEvent)
      (nm b tgt : String),
      s.reachable = true →
      kvLookup s.kv (messageClaimKey e) = none →
      env.channelName e.channel = some nm →
      endsWithStr nm "-apptbk" = true →
      nm ∉ IGNORED_CHANNEL_NAMES →
      nm ∉ env.ignoredChannels →
      env.apptbkMaster = some tgt →
      e.bot_id = some b →
      (handle_message env s e).1 = .enqueued "apptbk" ∧
      (handle_message env s e).2.stream =
        s.stream ++ [mkPostPayload env e nm "apptbk" tgt]) ∧
    (∀ (env : ListenerEnv) (s : RedisState) (e : MessageEvent)
      (nm b : String),
      env.channelName e.channel = some nm →
      endsWithStr nm "-apptbk" = false →
      e.bot_id = some b →
      (∀ c, (handle_message env s e).1 ≠ .enqueued c) ∧
      (handle_message env s e).2.stream = s.stream) := by
  constructor
  · intro env s e nm b tgt hr hk hn ha hig1 hig2 ht hb
    have hcl : claimResult s e =
        (true, { s with kv := (messageClaimKey e, messageIdentifier e) ::
          s.kv }) :=
      try_fcfs_claim_won s (messageClaimKey e) (messageIdentifier e) hr hk
    have hres : resolve_target_channel env "apptbk" = some tgt := by
      rw [show resolve_target_channel env "apptbk" = env.apptbkMaster from
        rfl, ht]
    unfold handle_message
    rw [hcl]
    simp [hn, hig1, hig2, hb, ha, classify_apptbk env nm ha, hres,
      enqueue_forward_job, hr]
  · intro env s e nm b hn ha hb
    have h2 : (claimResult s e).2.stream = s.stream :=
      (try_fcfs_claim_state s (messageClaimKey e) (messageIdentifier e)).2
    constructor
    · intro c
      unfold handle_message
      cases hcl : (claimResult s e).1
      · simp
      · simp only [hcl, Bool.not_true, Bool.false_eq_true, if_false, hn]
        by_cases hig : nm ∈ IGNORED_CHANNEL_NAMES ∨ nm ∈ env.ignoredChannels
        · simp [hig]
        · simp [hig, hb, ha]
    · unfold handle_message
      cases hcl : (claimResult s e).1
      · simp [h2]
      · simp only [hcl, Bool.not_true, Bool.false_eq_true, if_false, hn]
        by_cases hig : nm ∈ IGNORED_CHANNEL_NAMES ∨ nm ∈ env.ignoredChannels
        · simp [hig, h2]
        · simp [hig, hb, ha, h2]

/-- Witness for C4 (amended): a concrete bot message in a live apptbk
channel is enqueued; a concrete bot message in an admin channel is not. -/
theorem apptbk_bot_rule_witness :
    (handle_message apptbkLiveEnv {} apptbkBotEvent).1 =
      .enqueued "apptbk" ∧
    (handle_message apptbkLiveEnv {} adminBotEvent).2.stream = [] := by
  have ha := (apptbk_bot_rule.1 apptbkLiveEnv {} apptbkBotEvent
    "acme-apptbk" "B9" "MAPT" rfl (by decide) (by decide) (by decide)
    (by decide) (by decide) rfl (by decide)).1
  have hb := (apptbk_bot_rule.2 apptbkLiveEnv {} adminBotEvent
    "acme-admin" "B9" (by decide) (by decide) (by decide)).2
  exact ⟨ha, hb⟩

/-- Counterexample for C4 as stated: `ccdocs-apptbk` ends in `-apptbk`, yet
its (bot-originated) event is dropped by the ignore list, not forwarded. -/
theorem apptbk_bot_rule_counterexample :
    endsWithStr "ccdocs-apptbk" "-apptbk" = true ∧
    apptbkIgnoredEvent.bot_id = some "B9" ∧
    (handle_message apptbkIgnoredEnv {} apptbkIgnoredEvent).1 =
      .droppedIgnored ∧
    (handle_message apptbkIgnoredEnv {} apptbkIgnoredEvent).2.stream = [] := by
  refine ⟨by decide, rfl, by decide, by decide⟩

/-- **C10.** Two distinct events (different ts) in one channel that both
lack `client_msg_id` and agree on user and first-50 text hash to the same
identifier and claim key: processed one after the other within the claim
TTL, the second is silently dropped as a duplicate and the queue gains at
most one entry. -/
theorem duplicate_burst_drop (env : ListenerEnv) (s : RedisState)
    (e1 e2 : MessageEvent) (hr : s.reachable = true)
    (h1 : e1.client_msg_id = none) (h2 : e2.client_msg_id = none)
    (_hts : e1.ts ≠ e2.ts)
    (hch : e1.channel = e2.channel) (hu : e1.user = e2.user)
    (htxt : takeChars e1.text 50 = takeChars e2.text 50) :
    messageIdentifier e2 = messageIdentifier e1 ∧
    messageClaimKey e2 = messageClaimKey e1 ∧
    handle_message env (handle_message env s e1).2 e2 =
      (.droppedDuplicate, (handle_message env s e1).2) ∧
    (handle_message env (handle_message env s e1).2 e2).2.stream.length ≤
      s.stream.length + 1 := by
  have hid : messageIdentifier e2 = messageIdentifier e1 :=
    messageIdentifier_congr e2 e1 (Or.inl h2) (Or.inl h1) hch.symm hu.symm
      htxt.symm
  have hkey : messageClaimKey e2 = messageClaimKey e1 := by
    unfold messageClaimKey
    rw [hid, ← hch]
  have hstate := handle_message_state env s e1
  have hr1 : (handle_message env s e1).2.reachable = true := by
    rw [hstate.2.1]; exact hr
  have hkeyp : (kvLookup (handle_message env s e1).2.kv
      (messageClaimKey e1)).isSome = true := by
    rw [hstate.1]; exact try_fcfs_claim_key _ _ _ hr
  obtain ⟨w, hw⟩ := Option.isSome_iff_exists.mp hkeyp
  have hdup := handle_message_duplicate env (handle_message env s e1).2 e2 w
    hr1 (by rw [hkey]; exact hw)
  refine ⟨hid, hkey, hdup, ?_⟩
  rw [hdup]
  exact hstate.2.2

/-- Witness for C10: a concrete burst of two same-content messages yields
one queued job; the second is dropped as a duplicate. -/
theorem duplicate_burst_drop_witness :
    handle_message agentEnv (handle_message agentEnv {} burstEvent1).2
      burstEvent2 =
      (.droppedDuplicate, (handle_message agentEnv {} burstEvent1).2) ∧
    (handle_message agentEnv (handle_message agentEnv {} burstEvent1).2
      burstEvent2).2.stream.length ≤ 1 := by
  have h := duplicate_burst_drop agentEnv {} burstEvent1 burstEvent2 rfl rfl
    rfl (by decide) rfl rfl rfl
  exact ⟨h.2.2.1, h.2.2.2⟩

/-- The trace of a retry-loop run with fuel left always starts with the
platform call itself. -/
theorem postLoop_trace_cons (env : SlackEnv) (f a b : Nat) (st : WorkerState)
    (p : JobPayload) (mt : String) (th : Option String) (hf : 0 < f) :
    ∃ tr, (postLoop env f a b st p mt th).2 =
      Action.postMessage p.target_channel_id mt th :: tr := by
  cases f with
  | zero => omega
  | succ f =>
    unfold postLoop
    cases env.postResp st.postCalls with
    | ok mts =>
      by_cases hts : (p.ts == "") = true
      · simp only [hts, if_true]; exact ⟨_, rfl⟩
      · simp only [hts, Bool.false_eq_true, if_false]; exact ⟨_, rfl⟩
    | apiError err ra =>
      by_cases hra : 0 < ra
      · simp only [hra, if_true]; exact ⟨_, rfl⟩
      · simp only [hra, if_false]
        by_cases htr : (transientErrs.contains err && decide (a < 3)) = true
        · simp only [htr, if_true]; exact ⟨_, rfl⟩
        · simp only [htr, Bool.false_eq_true, if_false]; exact ⟨_, rfl⟩

/-- **C5 (amended).** For a `post` job with `is_thread_reply=true` whose
parent is already in `ParentMap`, the reply is posted with the mapped
thread ts; on a `ParentMap` miss, provided the original parent can be
fetched and the synthetic parent post succeeds, the worker fetches the
parent, posts it, stores its master ts into `ParentMap`, and only then posts
the reply threaded under it. -/
theorem thread_parent_first :
    (∀ (env : SlackEnv) (st : WorkerState) (p : JobPayload) (tts m : String),
      p.is_thread_reply = true → p.thread_ts = some tts → tts ≠ "" →
      get_master_ts_for_parent st.redis p.source_channel_id tts = some m →
      m ≠ "" →
      ∃ tr, (handle_post_job env st p).2 =
        Action.postMessage p.target_channel_id (postText env p) (some m) ::
          tr) ∧
    (∀ (env : SlackEnv) (st : WorkerState) (p : JobPayload)
      (tts : String) (msg : HistMsg) (mts : String),
      p.is_thread_reply = true → p.thread_ts = some tts → tts ≠ "" →
      get_master_ts_for_parent st.redis p.source_channel_id tts = none →
      env.history p.source_channel_id tts = some msg →
      env.postResp st.postCalls = .ok mts →
      st.redis.reachable = true →
      ∃ tr, (handle_post_job env st p).2 =
        .fetchHistory p.source_channel_id tts ::
        .postMessage p.target_channel_id
          (renderMessage p.source_channel_name msg.text
            (msg.user.getD "unknown") (env.fmtTime msg.ts)) none ::
        .setParentMap p.source_channel_id msg.ts mts ::
        .postMessage p.target_channel_id (postText env p) (some mts) ::
          tr) := by
  constructor
  · intro env st p tts m hp htts hne hpar hm
    have hthr : threadResolution env st p = (some m, st, []) := by
      unfold threadResolution threadTruthy ensure_parent_posted
      rw [hp, htts]
      have h1 : (tts != "") = true := by simp [hne]
      have h2 : (tts == "") = false := by simp [hne]
      have h3 : (m == "") = false := by simp [hm]
      simp [h1, h2, h3, hpar]
    obtain ⟨tr, htr⟩ := postLoop_trace_cons env 4 0 1 st p (postText env p)
      (some m) (by norm_num)
    refine ⟨tr, ?_⟩
    unfold handle_post_job
    rw [hthr]
    dsimp only
    exact htr
  · intro env st p tts msg mts hp htts hne hpar hh hok hre
    have hthr : threadResolution env st p =
        (some mts,
         { st with postCalls := st.postCalls + 1, redis :=
            { st.redis with kv :=
              (mapParentKey p.source_channel_id msg.ts, mts) ::
                st.redis.kv } },
         [.fetchHistory p.source_channel_id tts,
          .postMessage p.target_channel_id
            (renderMessage p.source_channel_name msg.text
              (msg.user.getD "unknown") (env.fmtTime msg.ts)) none,
          .setParentMap p.source_channel_id msg.ts mts]) := by
      unfold threadResolution threadTruthy ensure_parent_posted
      rw [hp, htts]
      have h1 : (tts != "") = true := by simp [hne]
      have h2 : (tts == "") = false := by simp [hne]
      simp [h1, h2, hpar, hh, hok, set_master_ts_for_parent, hre]
    obtain ⟨tr, htr⟩ := postLoop_trace_cons env 4 0 1
      { st with postCalls := st.postCalls + 1, redis :=
         { st.redis with kv :=
           (mapParentKey p.source_channel_id msg.ts, mts) ::
             st.redis.kv } } p (postText env p) (some mts) (by norm_num)
    refine ⟨tr, ?_⟩
    unfold handle_post_job
    rw [hthr]
    dsimp only
    rw [htr]
    rfl

/-- Witness for C5 (amended): with a fetchable parent, the concrete trace is
fetch, synthetic parent post, `ParentMap` write, then the threaded reply. -/
theorem thread_parent_first_witness :
    ∃ tr, (handle_post_job parentEnv freshWorker replyJob).2 =
      .fetchHistory replyJob.source_channel_id "100.1" ::
      .postMessage replyJob.target_channel_id
        (renderMessage replyJob.source_channel_name "root"
          ((some "U0").getD "unknown") (parentEnv.fmtTime "100.1")) none ::
      .setParentMap replyJob.source_channel_id "100.1" "T1" ::
      .postMessage replyJob.target_channel_id (postText parentEnv replyJob)
        (some "T1") :: tr :=
  thread_parent_first.2 parentEnv freshWorker replyJob "100.1"
    { ts := "100.1", text := "root", user := some "U0" } "T1" rfl rfl
    (by decide) (by decide) (by decide) rfl rfl

/-- Counterexample for C5 as stated: when the original parent cannot be
fetched, the reply post succeeds (it is posted unthreaded and `MsgMap` is
written) while no parent mapping exists in `ParentMap`. -/
theorem thread_parent_first_counterexample :
    replyJob.is_thread_reply = true ∧
    (handle_post_job orphanEnv freshWorker replyJob).2 =
      [.fetchHistory "CS" "100.1",
       .postMessage "MT" (postText orphanEnv replyJob) none,
       .setMsgMap "CS" "100.2" "T1"] ∧
    kvLookup (handle_post_job orphanEnv freshWorker replyJob).1.redis.kv
      (mapParentKey "CS" "100.1") = none := by
  refine ⟨rfl, by decide, by decide⟩

/-- **C6 (amended).** The retry envelope around platform calls: an error
carrying `Retry-After: n` makes the worker sleep `n` seconds and retry; an
error code in {ratelimited, rate_limited, internal_error, unknown_error}
without `Retry-After` is retried after 1s, 2s, 4s backoff; any other error
is logged without retrying; but **all** retrying — `Retry-After` included —
is capped at 4 attempts total (a 4th-attempt `Retry-After` error still
sleeps, then gives up); the job is acknowledged in every case. -/
theorem retry_policy :
    (∀ (env : SlackEnv) (st : WorkerState) (p : JobPayload)
      (err ts1 : String) (ra : Nat),
      p.is_thread_reply = false → p.ts = "" →
      env.postResp st.postCalls = .apiError err ra → 0 < ra →
      env.postResp (st.postCalls + 1) = .ok ts1 →
      (handle_post_job env st p).2 =
        [.postMessage p.target_channel_id (postText env p) none,
         .sleepSec ra,
         .postMessage p.target_channel_id (postText env p) none]) ∧
    (∀ (env : SlackEnv) (st : WorkerState) (p : JobPayload)
      (err ts1 : String),
      p.is_thread_reply = false → p.ts = "" →
      err ∈ transientErrs →
      env.postResp st.postCalls = .apiError err 0 →
      env.postResp (st.postCalls + 1) = .apiError err 0 →
      env.postResp (st.postCalls + 1 + 1) = .apiError err 0 →
      env.postResp (st.postCalls + 1 + 1 + 1) = .ok ts1 →
      (handle_post_job env st p).2 =
        [.postMessage p.target_channel_id (postText env p) none,
         .sleepSec 1,
         .postMessage p.target_channel_id (postText env p) none,
         .sleepSec 2,
         .postMessage p.target_channel_id (postText env p) none,
         .sleepSec 4,
         .postMessage p.target_channel_id (postText env p) none]) ∧
    (∀ (env : SlackEnv) (st : WorkerState) (p : JobPayload) (err : String),
      p.is_thread_reply = false → p.ts = "" →
      err ∉ transientErrs →
      env.postResp st.postCalls = .apiError err 0 →
      (handle_post_job env st p).2 =
        [.postMessage p.target_channel_id (postText env p) none,
         .logNoRetry err]) ∧
    (∀ (env : SlackEnv) (st : WorkerState) (p : JobPayload)
      (err : String) (ra : Nat),
      p.is_thread_reply = false → p.ts = "" → 0 < ra →
      env.postResp st.postCalls = .apiError err ra →
      env.postResp (st.postCalls + 1) = .apiError err ra →
      env.postResp (st.postCalls + 1 + 1) = .apiError err ra →
      env.postResp (st.postCalls + 1 + 1 + 1) = .apiError err ra →
      countPosts (handle_post_job env st p).2 = 4 ∧
      (handle_post_job env st p).2.getLast? = some (.sleepSec ra)) ∧
    (∀ (env : SlackEnv) (st : WorkerState) (p : JobPayload),
      (processJob env st p).2.getLast? = some .ackJob) := by
  refine ⟨?_, ?_, ?_, ?_, ?_⟩
  · intro env st p err ts1 ra hp hts h0 hra h1
    have hthr : threadResolution env st p = (none, st, []) := by
      simp [threadResolution, hp]
    have htb : (p.ts == "") = true := by simp [hts]
    unfold handle_post_job
    rw [hthr]
    dsimp only
    simp [postLoop, h0, h1, hra, htb]
  · intro env st p err ts1 hp hts htr h0 h1 h2 h3
    have hthr : threadResolution env st p = (none, st, []) := by
      simp [threadResolution, hp]
    have htb : (p.ts == "") = true := by simp [hts]
    unfold handle_post_job
    rw [hthr]
    dsimp only
    simp [postLoop, h0, h1, h2, h3, htr, htb]
  · intro env st p err hp hts htr h0
    have hthr : threadResolution env st p = (none, st, []) := by
      simp [threadResolution, hp]
    unfold handle_post_job
    rw [hthr]
    dsimp only
    simp [postLoop, h0, htr]
  · intro env st p err ra hp hts hra h0 h1 h2 h3
    have hthr : threadResolution env st p = (none, st, []) := by
      simp [threadResolution, hp]
    have htrace : (handle_post_job env st p).2 =
        [.postMessage p.target_channel_id (postText env p) none,
         .sleepSec ra,
         .postMessage p.target_channel_id (postText env p) none,
         .sleepSec ra,
         .postMessage p.target_channel_id (postText env p) none,
         .sleepSec ra,
         .postMessage p.target_channel_id (postText env p) none,
         .sleepSec ra] := by
      unfold handle_post_job
      rw [hthr]
      dsimp only
      simp [postLoop, h0, h1, h2, h3, hra]
    rw [htrace]
    constructor
    · simp [countPosts]
    · rfl
  · intro env st p
    unfold processJob
    by_cases ht : (p.type == "update") = true <;> simp [ht]

/-- Witness for C6 (amended): a concrete `Retry-After: 7` error is slept on
and retried; a concrete permanent error is logged without a retry. -/
theorem retry_policy_witness :
    (handle_post_job retryAfterEnv freshWorker plainJob).2 =
      [.postMessage "MT" (postText retryAfterEnv plainJob) none,
       .sleepSec 7,
       .postMessage "MT" (postText retryAfterEnv plainJob) none] ∧
    (handle_post_job permErrorEnv freshWorker plainJob).2 =
      [.postMessage "MT" (postText permErrorEnv plainJob) none,
       .logNoRetry "channel_not_found"] := by
  constructor
  · exact retry_policy.1 retryAfterEnv freshWorker plainJob "err_x" "T9" 7
      rfl rfl (by decide) (by decide) (by decide)
  · exact retry_policy.2.2.1 permErrorEnv freshWorker plainJob
      "channel_not_found" rfl rfl (by decide) (by decide)

/-- Counterexample for C6 as stated: under persistent HTTP 429 with
`Retry-After: 3` the worker makes exactly 4 calls; the 4th error also
carries `Retry-After`, the worker sleeps once more and then does **not**
retry the call. -/
theorem retry_policy_counterexample :
    (handle_post_job ratelimitedEnv freshWorker plainJob).2 =
      [.postMessage "MT" (postText ratelimitedEnv plainJob) none,
       .sleepSec 3,
       .postMessage "MT" (postText ratelimitedEnv plainJob) none,
       .sleepSec 3,
       .postMessage "MT" (postText ratelimitedEnv plainJob) none,
       .sleepSec 3,
       .postMessage "MT" (postText ratelimitedEnv plainJob) none,
       .sleepSec 3] ∧
    countPosts (handle_post_job ratelimitedEnv freshWorker plainJob).2 = 4 ∧
    (handle_post_job ratelimitedEnv freshWorker plainJob).2.getLast? =
      some (.sleepSec 3) := by
  refine ⟨by decide, by decide, by decide⟩

/-- **C7.** `handle_update_job` looks up `MsgMap[(source_channel_id,
source_ts)]`: if absent it logs and returns with no platform call and no map
write; if present (and the update call succeeds) it issues exactly one
update at the mapped target ts and writes no new map entry. -/
theorem update_job_semantics :
    (∀ (env : SlackEnv) (st : WorkerState) (p : JobPayload),
      get_master_ts_for_message st.redis p.source_channel_id p.ts = none →
      handle_update_job env st p = (st, [.logNoMapping])) ∧
    (∀ (env : SlackEnv) (st : WorkerState) (p : JobPayload) (m ts' : String),
      get_master_ts_for_message st.redis p.source_channel_id p.ts = some m →
      m ≠ "" →
      env.updResp st.updCalls = .ok ts' →
      (handle_update_job env st p).2 =
        [.updateMessage p.target_channel_id m p.text] ∧
      (handle_update_job env st p).1.redis = st.redis) := by
  constructor
  · intro env st p h
    unfold handle_update_job
    rw [h]
  · intro env st p m ts' h hm hresp
    have hbeq : (m == "") = false := by simp [hm]
    unfold handle_update_job
    rw [h]
    dsimp only
    rw [hbeq]
    simp only [Bool.false_eq_true, if_false]
    unfold updLoop
    rw [hresp]
    exact ⟨rfl, rfl⟩

/-- Witness for C7: a concrete missing mapping logs and acks with no side
effect; a concrete present mapping yields exactly one update at `T1`. -/
theorem update_job_semantics_witness :
    handle_update_job updateOkEnv freshWorker updateJob =
      (freshWorker, [.logNoMapping]) ∧
    (handle_update_job updateOkEnv mappedWorker updateJob).2 =
      [.updateMessage "MT" "T1" "edited"] := by
  refine ⟨update_job_semantics.1 updateOkEnv freshWorker updateJob
    (by decide), ?_⟩
  exact (update_job_semantics.2 updateOkEnv mappedWorker updateJob "T1"
    "U9" (by decide) (by decide) (by decide)).1

end MasterListener
